import Mathlib

/-
Verification development for the mock UV-Vis spectrometer simulator
(`mock_uvvis_controller.py`).

The Python module is embedded shallowly:

* Machine reals (numpy float64 arrays) are modelled as exact rationals
  (`ℚ`); the claims under study are exact algebraic statements about the
  formulas, so no rounding model is needed.
* The transcendental functions used by the code (`np.exp`, and the square
  root inside `np.std`) are abstracted as explicit function parameters
  `fexp fsqrt : ℚ → ℚ`: no claim depends on any property of the
  exponential beyond where and with which arguments it is applied.
* `np.random.normal(mu, sigma, count)` is modelled by an abstract stream
  `g : ℕ → ℚ` of standard-normal draws together with a cursor: the draw at
  cursor position `k` is `mu + sigma * g k`, and the cursor advances by
  `count`.  This mirrors numpy's stateful global generator.
* Exceptions become `Except MockError`.  The code can raise
  `RuntimeError("Spectrometer not connected")` (constructor
  `notConnected`) and, for `n_measurements = 0`, Python's
  `UnboundLocalError` on the loop variable `data` (constructor
  `unboundLocal "data"`).  The constructor `invalidArgument` represents
  the error taxonomy of the specification; the code never produces it.
* Python dicts become insertion-ordered association lists with
  last-write-wins `update` semantics; for the aliasing claim a small
  explicit store of dict objects is used so that object identity is
  observable (`measure_spectrum_heap`).
-/

namespace MockUVVis

/-- Values storable in a measurement's metadata mapping: the Python code
puts strings (possibly `None`), booleans, integers and numpy arrays into
the dict. -/
inductive MetaVal where
  | strOpt (v : Option String)
  | bool (v : Bool)
  | int (v : ℤ)
  | arr (v : List ℚ)
  deriving DecidableEq

/-- A Python dict with string keys, as an insertion-ordered association
list with unique keys maintained by `dictSet`. -/
abbrev Dict := List (String × MetaVal)

/-- Setting one key of a dict: overwrite in place if present (keeping the
insertion order, as Python dicts do), else append. -/
def dictSet (d : Dict) (k : String) (v : MetaVal) : Dict :=
  if d.any (fun p => p.1 == k) then
    d.map (fun p => if p.1 == k then (k, v) else p)
  else d ++ [(k, v)]

/-- Embedding of Python `d.update({...})`: fold `dictSet` over the new
key-value pairs, later writes winning. -/
def dictUpdate (d : Dict) (kvs : List (String × MetaVal)) : Dict :=
  kvs.foldl (fun acc kv => dictSet acc kv.1 kv.2) d

/-- Embedding of Python `d.get(k)` / `d[k]`: the value at the first
occurrence of the key. -/
def dictGet (d : Dict) (k : String) : Option MetaVal :=
  (d.find? (fun p => p.1 == k)).map (fun p => p.2)

/-- State of numpy's global random generator: an abstract stream of
standard-normal draws plus a cursor into it. -/
structure Rng where
  g : ℕ → ℚ
  pos : ℕ

/-- Embedding of `np.random.normal(mu, sigma, count)`: `count` fresh
draws, each `mu + sigma * (standard normal draw)`, advancing the cursor. -/
def normalDraws (r : Rng) (mu sigma : ℚ) (count : ℕ) : List ℚ × Rng :=
  ((List.range count).map (fun j => mu + sigma * r.g (r.pos + j)),
   ⟨r.g, r.pos + count⟩)

/-- Errors the embedded operations can signal.  `notConnected` is the
code's `RuntimeError("Spectrometer not connected")`; `unboundLocal v` is
Python's `UnboundLocalError` on variable `v`; `invalidArgument` is the
specification's InvalidArgument taxonomy entry, which the code never
raises. -/
inductive MockError where
  | notConnected
  | unboundLocal (v : String)
  | invalidArgument (msg : String)
  deriving DecidableEq

/-- Embedding of `np.linspace(start, stop, num)` over `ℚ`:
`start + i * (stop - start) / (num - 1)` for `i = 0, ..., num - 1`. -/
def linspace (start stop : ℚ) (num : ℕ) : List ℚ :=
  (List.range num).map (fun i : ℕ => start + (i : ℚ) * ((stop - start) / ((num : ℚ) - 1)))

/-- The simulator instance state: fields of `MockUVVisController.__init__`. -/
structure MockUVVisController where
  serial_number : Option String
  is_connected : Bool
  default_integration_time : ℤ
  wavelengths : List ℚ
  deriving DecidableEq

/-- Embedding of `MockUVVisController.__init__`: disconnected, default
integration time 100000 µs, wavelength axis `np.linspace(200, 1100, 2048)`. -/
def init (serial_number : Option String) : MockUVVisController :=
  { serial_number := serial_number
    is_connected := false
    default_integration_time := 100000
    wavelengths := linspace 200 1100 2048 }

/-- Embedding of `connect`: sets the flag, returns `True`. -/
def connect (st : MockUVVisController) : Bool × MockUVVisController :=
  (true, { st with is_connected := true })

/-- Embedding of `disconnect`: clears the flag unconditionally. -/
def disconnect (st : MockUVVisController) : MockUVVisController :=
  { st with is_connected := false }

/-- Embedding of `get_wavelengths`: the stored axis, or a not-connected
error. -/
def get_wavelengths (st : MockUVVisController) : Except MockError (List ℚ) :=
  if st.is_connected then .ok st.wavelengths else .error .notConnected

/-- Embedding of `_generate_mock_spectrum`.  The `reference` branch is
`base + noise`; every other `spectrum_type` takes the `else` branch
`base + absorption1 + absorption2 + noise` (left associated, pointwise).
The noise is one `np.random.normal(0, 500, len(wavelengths))` call. -/
def generate_mock_spectrum (fexp : ℚ → ℚ) (st : MockUVVisController)
    (spectrum_type : String) (r : Rng) : List ℚ × Rng :=
  if spectrum_type == "reference" then
    let base := st.wavelengths.map (fun w => 40000 + 10000 * fexp (-((w - 500) ^ 2) / 50000))
    let nr := normalDraws r 0 500 st.wavelengths.length
    (List.zipWith (fun a b => a + b) base nr.1, nr.2)
  else
    let base := st.wavelengths.map (fun w => 40000 + 10000 * fexp (-((w - 500) ^ 2) / 50000))
    let absorption1 := st.wavelengths.map (fun w => -15000 * fexp (-((w - 450) ^ 2) / 500))
    let absorption2 := st.wavelengths.map (fun w => -8000 * fexp (-((w - 650) ^ 2) / 800))
    let nr := normalDraws r 0 500 st.wavelengths.length
    (List.zipWith (fun a b => a + b)
      (List.zipWith (fun a b => a + b)
        (List.zipWith (fun a b => a + b) base absorption1) absorption2) nr.1,
     nr.2)

/-- Intensity payload of a measurement: a single spectrum for
`measure_spectrum` and averaged series, or a 2-D stack (`np.array` of the
collected rows) for `measure_multiple_spectra` with `average=False`. -/
inductive Intensities where
  | one (xs : List ℚ)
  | stack (xss : List (List ℚ))
  deriving DecidableEq

/-- Extracting the 1-D payload of an `Intensities`. -/
def Intensities.asOne : Intensities → List ℚ
  | .one xs => xs
  | .stack _ => []

/-- Embedding of the `MockSpectrumData` dataclass.  The wall-clock
timestamp carries no information relevant to any claim and is modelled as
`Unit`. -/
structure MockSpectrumData where
  wavelengths : List ℚ
  intensities : Intensities
  timestamp : Unit
  integration_time_us : ℤ
  metadata : Dict
  deriving DecidableEq

/-- The fixed key-value pairs that `measure_spectrum` merges into the
metadata dict via `metadata.update({...})`. -/
def fixedEntries (st : MockUVVisController) (correct_dark_counts correct_nonlinearity : Bool) :
    List (String × MetaVal) :=
  [("serial_number", MetaVal.strOpt st.serial_number),
   ("dark_corrected", MetaVal.bool correct_dark_counts),
   ("nonlinearity_corrected", MetaVal.bool correct_nonlinearity),
   ("mock", MetaVal.bool true)]

/-- Embedding of `measure_spectrum`.  Raises not-connected when
disconnected; resolves the integration time against the stored default;
synthesizes the spectrum; scales it by `integration_time_us / 100000`;
merges the fixed metadata keys into the caller's dict (a fresh empty dict
when `None` was passed); returns the data record and the advanced RNG. -/
def measure_spectrum (fexp : ℚ → ℚ) (st : MockUVVisController)
    (integration_time_us : Option ℤ) (correct_dark_counts : Bool)
    (correct_nonlinearity : Bool) (metadata : Option Dict)
    (spectrum_type : String) (r : Rng) :
    Except MockError (MockSpectrumData × Rng) :=
  if st.is_connected then
    let t := integration_time_us.getD st.default_integration_time
    let gr := generate_mock_spectrum fexp st spectrum_type r
    let intensities := gr.1.map (fun x => x * ((t : ℚ) / 100000))
    let m := dictUpdate (metadata.getD []) (fixedEntries st correct_dark_counts correct_nonlinearity)
    .ok ({ wavelengths := st.wavelengths
           intensities := Intensities.one intensities
           timestamp := ()
           integration_time_us := t
           metadata := m }, gr.2)
  else .error .notConnected

/-- Embedding of the `for i in range(n_measurements)` loop of
`measure_multiple_spectra`: each iteration calls `measure_spectrum` with
the given integration time and spectrum type (metadata `None`, both
correction flags `False`), appends `data.intensities` to the accumulator
and remembers the last `data`. -/
def measureLoop (fexp : ℚ → ℚ) (st : MockUVVisController) (it : Option ℤ)
    (spectrum_type : String) :
    ℕ → Rng → List (List ℚ) → Option MockSpectrumData →
    Except MockError (List (List ℚ) × Option MockSpectrumData × Rng)
  | 0, r, acc, last => .ok (acc, last, r)
  | Nat.succ k, r, acc, last =>
    match measure_spectrum fexp st it false false none spectrum_type r with
    | .error e => .error e
    | .ok dr =>
      measureLoop fexp st it spectrum_type k dr.2
        (acc ++ [dr.1.intensities.asOne]) (some dr.1)

/-- Embedding of `np.mean(measurements, axis=0)` on a rectangular list of
rows: for each column index, the column sum divided by the number of rows. -/
def columnwiseMean (xss : List (List ℚ)) : List ℚ :=
  match xss with
  | [] => []
  | x :: _ =>
    (List.range x.length).map (fun j =>
      (xss.map (fun xs => xs.getD j 0)).sum / (xss.length : ℚ))

/-- Embedding of `np.std(measurements, axis=0)` (population standard
deviation, `ddof = 0`), with the square root abstracted as `fsqrt`. -/
def columnwiseStd (fsqrt : ℚ → ℚ) (xss : List (List ℚ)) : List ℚ :=
  match xss with
  | [] => []
  | x :: _ =>
    (List.range x.length).map (fun j =>
      fsqrt ((xss.map (fun xs => (xs.getD j 0 - (columnwiseMean xss).getD j 0) ^ 2)).sum
        / (xss.length : ℚ)))

/-- Embedding of `measure_multiple_spectra`.  After the loop, the Python
code reads `data.integration_time_us` in both branches; when the loop ran
zero times, `data` was never assigned and Python raises
`UnboundLocalError` — modelled by the `unboundLocal "data"` error. -/
def measure_multiple_spectra (fexp fsqrt : ℚ → ℚ) (st : MockUVVisController)
    (n_measurements : ℕ) (integration_time_us : Option ℤ) (average : Bool)
    (spectrum_type : String) (r : Rng) :
    Except MockError (MockSpectrumData × Rng) :=
  match measureLoop fexp st integration_time_us spectrum_type n_measurements r [] none with
  | .error e => .error e
  | .ok out =>
    match out.2.1 with
    | none => .error (.unboundLocal "data")
    | some data =>
      if average then
        .ok ({ wavelengths := st.wavelengths
               intensities := Intensities.one (columnwiseMean out.1)
               timestamp := ()
               integration_time_us := data.integration_time_us
               metadata := [("n_measurements", MetaVal.int n_measurements),
                            ("std_intensities", MetaVal.arr (columnwiseStd fsqrt out.1)),
                            ("averaged", MetaVal.bool true),
                            ("mock", MetaVal.bool true)] }, out.2.2)
      else
        .ok ({ wavelengths := st.wavelengths
               intensities := Intensities.stack out.1
               timestamp := ()
               integration_time_us := data.integration_time_us
               metadata := [("n_measurements", MetaVal.int n_measurements),
                            ("averaged", MetaVal.bool false),
                            ("mock", MetaVal.bool true)] }, out.2.2)

/-- Embedding of `optimize_integration_time`: a stub that ignores its
arguments and the connection state and returns the constant 120000. -/
def optimize_integration_time (st : MockUVVisController) (target_counts : ℚ)
    (max_iterations : ℤ) : ℤ :=
  120000

/-- A heap of dict objects; a dict reference is an index into the store.
This makes Python object identity observable for the aliasing analysis of
`measure_spectrum`. -/
abbrev Store := List Dict

/-- Dereferencing a dict reference. -/
def storeGet (s : Store) (ref : ℕ) : Dict := s.getD ref []

/-- In-place mutation of the dict object behind a reference. -/
def storeSet (s : Store) (ref : ℕ) (d : Dict) : Store := s.set ref d

/-- Allocation of a fresh dict object; the new reference is the old store
length, distinct from every existing reference. -/
def storeAlloc (s : Store) (d : Dict) : Store × ℕ := (s ++ [d], s.length)

/-- The measurement record of the heap-level model: identical to
`MockSpectrumData` except that the metadata field is a reference to a
dict object in the store, as in Python, where the dataclass field holds
the very dict object that was passed around. -/
structure MockSpectrumDataRef where
  wavelengths : List ℚ
  intensities : List ℚ
  timestamp : Unit
  integration_time_us : ℤ
  metadataRef : ℕ

/-- Heap-level embedding of `measure_spectrum`, tracking dict object
identity.  `metadata = none` is Python's `None` default: a fresh empty
dict is allocated.  `metadata = some ref` is a caller-supplied dict
object: `metadata.update({...})` mutates that very object in the store,
and the returned record's metadata field is the same reference. -/
def measure_spectrum_heap (fexp : ℚ → ℚ) (st : MockUVVisController) (store : Store)
    (integration_time_us : Option ℤ) (correct_dark_counts : Bool)
    (correct_nonlinearity : Bool) (metadata : Option ℕ)
    (spectrum_type : String) (r : Rng) :
    Except MockError (Store × MockSpectrumDataRef × Rng) :=
  if st.is_connected then
    let t := integration_time_us.getD st.default_integration_time
    let gr := generate_mock_spectrum fexp st spectrum_type r
    let intensities := gr.1.map (fun x => x * ((t : ℚ) / 100000))
    let sm : Store × ℕ :=
      match metadata with
      | none => storeAlloc store []
      | some ref => (store, ref)
    let store2 := storeSet sm.1 sm.2
      (dictUpdate (storeGet sm.1 sm.2) (fixedEntries st correct_dark_counts correct_nonlinearity))
    .ok (store2,
         { wavelengths := st.wavelengths
           intensities := intensities
           timestamp := ()
           integration_time_us := t
           metadataRef := sm.2 }, gr.2)
  else .error .notConnected

/-- The wavelength axis every instance is constructed with. -/
def wavelengthAxis : List ℚ := linspace 200 1100 2048

/-- A concrete RNG whose standard-normal stream is identically zero; used
only to instantiate universally quantified theorems at concrete inputs. -/
def rng0 : Rng := ⟨fun _ => 0, 0⟩

/-- A freshly constructed (disconnected) concrete instance. -/
def stD : MockUVVisController := init (some "MOCK-001")

/-- The same concrete instance after `connect()`. -/
def stC : MockUVVisController := (connect stD).2

/-- Projection used to state claims: the 1-D intensity payload of a
successful measurement, when there is one. -/
def okOneIntensities : Except MockError (MockSpectrumData × Rng) → Option (List ℚ)
  | .ok dr =>
    match dr.1.intensities with
    | .one xs => some xs
    | .stack _ => none
  | .error _ => none

/-- Projection used to state claims: the metadata dict of a successful
measurement. -/
def okMetadata : Except MockError (MockSpectrumData × Rng) → Option Dict
  | .ok dr => some dr.1.metadata
  | .error _ => none

theorem find?_none_of_any_false (k : String) (d : Dict)
    (h : d.any (fun p => p.1 == k) = false) :
    d.find? (fun p => p.1 == k) = none := by
  induction d with
  | nil => rfl
  | cons p rest ih =>
    simp only [List.any_cons, Bool.or_eq_false_iff] at h
    rw [List.find?_cons_of_neg _ (by simp [h.1])]
    exact ih h.2

theorem find?_map_overwrite (k : String) (v : MetaVal) (d : Dict)
    (h : d.any (fun p => p.1 == k) = true) :
    (d.map (fun p => if p.1 == k then (k, v) else p)).find? (fun p => p.1 == k)
      = some (k, v) := by
  induction d with
  | nil => simp at h
  | cons p rest ih =>
    rw [List.map_cons]
    by_cases hp : (p.1 == k) = true
    · rw [if_pos hp, List.find?_cons_of_pos _ (by simp)]
    · rw [if_neg hp, List.find?_cons_of_neg _ (by exact hp)]
      simp only [List.any_cons, hp, Bool.false_or] at h
      exact ih h

theorem find?_map_preserve (k k' : String) (v : MetaVal) (h : k' ≠ k) (d : Dict) :
    (d.map (fun p => if p.1 == k' then (k', v) else p)).find? (fun p => p.1 == k)
      = d.find? (fun p => p.1 == k) := by
  induction d with
  | nil => rfl
  | cons p rest ih =>
    rw [List.map_cons]
    by_cases hp : (p.1 == k') = true
    · have hpe : p.1 = k' := by simpa using hp
      rw [if_pos hp, List.find?_cons_of_neg _ (by simpa using h),
        List.find?_cons_of_neg _ (by simpa [hpe] using h)]
      exact ih
    · rw [if_neg hp]
      by_cases hq : (p.1 == k) = true
      · rw [List.find?_cons_of_pos _ (by exact hq), List.find?_cons_of_pos _ (by exact hq)]
      · rw [List.find?_cons_of_neg _ (by exact hq), List.find?_cons_of_neg _ (by exact hq)]
        exact ih

theorem dictGet_dictSet_self (d : Dict) (k : String) (v : MetaVal) :
    dictGet (dictSet d k v) k = some v := by
  unfold dictSet dictGet
  by_cases h : d.any (fun p => p.1 == k) = true
  · rw [if_pos h, find?_map_overwrite k v d h]
    rfl
  · rw [if_neg h, List.find?_append,
      find?_none_of_any_false k d (by rw [← Bool.not_eq_true]; exact h)]
    simp [List.find?]

theorem dictGet_dictSet_ne (d : Dict) (k k' : String) (v : MetaVal) (h : k' ≠ k) :
    dictGet (dictSet d k' v) k = dictGet d k := by
  unfold dictSet dictGet
  by_cases ha : d.any (fun p => p.1 == k') = true
  · rw [if_pos ha, find?_map_preserve k k' v h d]
  · rw [if_neg ha, List.find?_append]
    rw [List.find?_cons_of_neg _ (by simpa using h), List.find?_nil]
    cases hfd : d.find? (fun p => p.1 == k) <;> simp [hfd]

theorem dictGet_dictUpdate_fixed (st : MockUVVisController) (cd cn : Bool) (m : Dict) :
    dictGet (dictUpdate m (fixedEntries st cd cn)) "serial_number"
        = some (MetaVal.strOpt st.serial_number) ∧
    dictGet (dictUpdate m (fixedEntries st cd cn)) "dark_corrected"
        = some (MetaVal.bool cd) ∧
    dictGet (dictUpdate m (fixedEntries st cd cn)) "nonlinearity_corrected"
        = some (MetaVal.bool cn) ∧
    dictGet (dictUpdate m (fixedEntries st cd cn)) "mock"
        = some (MetaVal.bool true) := by
  simp only [dictUpdate, fixedEntries, List.foldl_cons, List.foldl_nil]
  refine ⟨?_, ?_, ?_, ?_⟩
  · rw [dictGet_dictSet_ne _ _ _ _ (by decide), dictGet_dictSet_ne _ _ _ _ (by decide),
      dictGet_dictSet_ne _ _ _ _ (by decide), dictGet_dictSet_self]
  · rw [dictGet_dictSet_ne _ _ _ _ (by decide), dictGet_dictSet_ne _ _ _ _ (by decide),
      dictGet_dictSet_self]
  · rw [dictGet_dictSet_ne _ _ _ _ (by decide), dictGet_dictSet_self]
  · rw [dictGet_dictSet_self]

theorem dictGet_dictUpdate_fixed_other (st : MockUVVisController) (cd cn : Bool) (m : Dict)
    (k : String) (h1 : k ≠ "serial_number") (h2 : k ≠ "dark_corrected")
    (h3 : k ≠ "nonlinearity_corrected") (h4 : k ≠ "mock") :
    dictGet (dictUpdate m (fixedEntries st cd cn)) k = dictGet m k := by
  simp only [dictUpdate, fixedEntries, List.foldl_cons, List.foldl_nil]
  rw [dictGet_dictSet_ne _ _ _ _ (Ne.symm h4), dictGet_dictSet_ne _ _ _ _ (Ne.symm h3),
    dictGet_dictSet_ne _ _ _ _ (Ne.symm h2), dictGet_dictSet_ne _ _ _ _ (Ne.symm h1)]

theorem measure_spectrum_connected (fexp : ℚ → ℚ) (st : MockUVVisController)
    (hc : st.is_connected = true) (it : Option ℤ) (cd cn : Bool) (md : Option Dict)
    (kind : String) (r : Rng) :
    measure_spectrum fexp st it cd cn md kind r =
      .ok ({ wavelengths := st.wavelengths
             intensities := Intensities.one ((generate_mock_spectrum fexp st kind r).1.map
               (fun x => x * (((it.getD st.default_integration_time : ℤ) : ℚ) / 100000)))
             timestamp := ()
             integration_time_us := it.getD st.default_integration_time
             metadata := dictUpdate (md.getD []) (fixedEntries st cd cn) },
           (generate_mock_spectrum fexp st kind r).2) := by
  simp [measure_spectrum, hc]

theorem generate_length (fexp : ℚ → ℚ) (st : MockUVVisController) (kind : String) (r : Rng) :
    (generate_mock_spectrum fexp st kind r).1.length = st.wavelengths.length := by
  unfold generate_mock_spectrum normalDraws
  by_cases h : (kind == "reference") = true <;>
    simp [h, List.length_zipWith]

theorem measureLoop_connected (fexp : ℚ → ℚ) (st : MockUVVisController)
    (hc : st.is_connected = true) (it : Option ℤ) (kind : String) :
    ∀ (k : ℕ) (r : Rng) (acc : List (List ℚ)) (last : Option MockSpectrumData),
    ∃ (ms : List (List ℚ)) (lastOut : Option MockSpectrumData) (rOut : Rng),
      measureLoop fexp st it kind k r acc last = .ok (acc ++ ms, lastOut, rOut) ∧
      ms.length = k ∧
      (∀ xs ∈ ms, xs.length = st.wavelengths.length) ∧
      (k = 0 → lastOut = last) ∧
      (1 ≤ k → ∃ d : MockSpectrumData, lastOut = some d ∧
        d.integration_time_us = it.getD st.default_integration_time) := by
  intro k
  induction k with
  | zero =>
    intro r acc last
    exact ⟨[], last, r, by simp [measureLoop], rfl, by simp, fun _ => rfl, by omega⟩
  | succ n ih =>
    intro r acc last
    have hms := measure_spectrum_connected fexp st hc it false false none kind r
    obtain ⟨ms, lastOut, rOut, heq, hlen, hrow, hzero, hpos⟩ :=
      ih (generate_mock_spectrum fexp st kind r).2
        (acc ++ [(generate_mock_spectrum fexp st kind r).1.map
          (fun x => x * (((it.getD st.default_integration_time : ℤ) : ℚ) / 100000))])
        (some { wavelengths := st.wavelengths
                intensities := Intensities.one ((generate_mock_spectrum fexp st kind r).1.map
                  (fun x => x * (((it.getD st.default_integration_time : ℤ) : ℚ) / 100000)))
                timestamp := ()
                integration_time_us := it.getD st.default_integration_time
                metadata := dictUpdate [] (fixedEntries st false false) })
    refine ⟨(generate_mock_spectrum fexp st kind r).1.map
        (fun x => x * (((it.getD st.default_integration_time : ℤ) : ℚ) / 100000)) :: ms,
      lastOut, rOut, ?_, by simpa using hlen, ?_, by omega, ?_⟩
    · rw [measureLoop, hms]
      simpa [Intensities.asOne] using heq
    · intro xs hxs
      rcases List.mem_cons.mp hxs with hx | hx
      · rw [hx]
        simp [generate_length]
      · exact hrow xs hx
    · intro _
      rcases Nat.eq_zero_or_pos n with hn | hn
      · subst hn
        exact ⟨_, hzero rfl, rfl⟩
      · exact hpos hn

theorem linspace_length (a b : ℚ) (n : ℕ) : (linspace a b n).length = n := by
  unfold linspace
  rw [List.length_map, List.length_range]

theorem linspace_getD (a b : ℚ) (n i : ℕ) (h : i < n) :
    (linspace a b n).getD i 0 = a + (i : ℚ) * ((b - a) / ((n : ℚ) - 1)) := by
  rw [List.getD_eq_getElem _ _ (by rw [linspace_length]; exact h)]
  unfold linspace
  simp only [List.getElem_map, List.getElem_range]

theorem linspace_pairwise_lt (a b : ℚ) (n : ℕ) (h : 0 < (b - a) / ((n : ℚ) - 1)) :
    List.Pairwise (fun x y => x < y) (linspace a b n) := by
  have hm : ∀ i j : ℕ, i < j →
      (fun i : ℕ => a + (i : ℚ) * ((b - a) / ((n : ℚ) - 1))) i
        < (fun i : ℕ => a + (i : ℚ) * ((b - a) / ((n : ℚ) - 1))) j := by
    intro i j hij
    have hq : (i : ℚ) < (j : ℚ) := by exact_mod_cast hij
    have := mul_lt_mul_of_pos_right hq h
    simp only []
    linarith
  unfold linspace
  exact List.Pairwise.map _ hm (List.pairwise_lt_range n)

theorem wavelengthAxis_facts :
    wavelengthAxis.length = 2048 ∧
    wavelengthAxis.getD 0 0 = 200 ∧
    wavelengthAxis.getD 2047 0 = 1100 ∧
    List.Pairwise (fun x y => x < y) wavelengthAxis := by
  refine ⟨linspace_length 200 1100 2048, ?_, ?_, ?_⟩
  · rw [wavelengthAxis, linspace_getD 200 1100 2048 0 (by norm_num)]
    norm_num
  · rw [wavelengthAxis, linspace_getD 200 1100 2048 2047 (by norm_num)]
    norm_num
  · exact linspace_pairwise_lt 200 1100 2048 (by norm_num)

/-- C9: `optimize_integration_time` returns exactly 120000 for every
instance (connected or not) and all argument values. -/
theorem c9_optimize_integration_time_constant (st : MockUVVisController)
    (target_counts : ℚ) (max_iterations : ℤ) :
    optimize_integration_time st target_counts max_iterations = 120000 := rfl

/-- C2 (amended): for every connected instance, `measure_multiple_spectra`
with `n_measurements = 0` fails, for both values of `average` — but with
Python's UnboundLocalError on the loop variable `data` (the reference
code's obscure failure), not with an InvalidArgument-style
"invalid measurement count" error.  It does not return a degenerate or
empty result. -/
theorem c2_measure_series_zero_fails_unbound (fexp fsqrt : ℚ → ℚ)
    (st : MockUVVisController) (hc : st.is_connected = true)
    (it : Option ℤ) (av : Bool) (kind : String) (r : Rng) :
    measure_multiple_spectra fexp fsqrt st 0 it av kind r
      = .error (.unboundLocal "data") := by
  simp [measure_multiple_spectra, measureLoop]

/-- C2 (counterexample to the claim as stated): on a concrete connected
instance, `measure_multiple_spectra(n_measurements=0)` raises the
unbound-local error on `data` for both `average` values, and that error
is not the specification's InvalidArgument "invalid measurement count". -/
theorem c2_counterexample :
    measure_multiple_spectra (fun q => q) (fun q => q) stC 0 none true "sample" rng0
        = .error (.unboundLocal "data") ∧
    measure_multiple_spectra (fun q => q) (fun q => q) stC 0 none false "sample" rng0
        = .error (.unboundLocal "data") ∧
    MockError.unboundLocal "data" ≠ MockError.invalidArgument "invalid measurement count" :=
  ⟨rfl, rfl, by decide⟩

/-- C2 (witness): the amended theorem applied at a concrete connected
instance. -/
theorem c2_witness :
    stC.is_connected = true ∧
    measure_multiple_spectra (fun q => q) (fun q => q) stC 0 (some 100000) true "reference" rng0
      = .error (.unboundLocal "data") :=
  ⟨rfl, c2_measure_series_zero_fails_unbound (fun q => q) (fun q => q) stC rfl
    (some 100000) true "reference" rng0⟩

/-- C1 (amended): while `is_connected = false`, `get_wavelengths`,
`measure_spectrum` (all arguments) and `measure_multiple_spectra` for
every `n_measurements ≥ 1` and both `average` values fail with the
not-connected error; and while `is_connected = true` none of the three
operations fails with that error, for any `n_measurements` (at
`n_measurements = 0` the failure is the unbound-local error, not the
not-connected one).  The original claim's "for every n" is false at
`n = 0`, where the loop body — and hence the connection check — never
runs. -/
theorem c1_not_connected_errors (fexp fsqrt : ℚ → ℚ)
    (st stc : MockUVVisController)
    (hd : st.is_connected = false) (hc : stc.is_connected = true)
    (it : Option ℤ) (cd cn : Bool) (md : Option Dict) (kind : String) (r : Rng)
    (n : ℕ) (hn : 1 ≤ n) (av : Bool) (m : ℕ) :
    get_wavelengths st = .error .notConnected ∧
    measure_spectrum fexp st it cd cn md kind r = .error .notConnected ∧
    measure_multiple_spectra fexp fsqrt st n it av kind r = .error .notConnected ∧
    get_wavelengths stc ≠ .error .notConnected ∧
    measure_spectrum fexp stc it cd cn md kind r ≠ .error .notConnected ∧
    measure_multiple_spectra fexp fsqrt stc m it av kind r ≠ .error .notConnected := by
  refine ⟨?_, ?_, ?_, ?_, ?_, ?_⟩
  · simp [get_wavelengths, hd]
  · simp [measure_spectrum, hd]
  · cases n with
    | zero => omega
    | succ k =>
      simp [measure_multiple_spectra, measureLoop, measure_spectrum, hd]
  · simp [get_wavelengths, hc]
  · rw [measure_spectrum_connected fexp stc hc it cd cn md kind r]
    simp
  · obtain ⟨ms, lastOut, rOut, heq, hlen, hrow, hzero, hpos⟩ :=
      measureLoop_connected fexp stc hc it kind m r [] none
    unfold measure_multiple_spectra
    rw [heq]
    cases lastOut with
    | none => simp
    | some data => cases av <;> simp

/-- C1 (counterexample to the claim as stated): on a concrete
disconnected instance, `measure_multiple_spectra` with
`n_measurements = 0` fails with the unbound-local error on `data`, not
with the not-connected error. -/
theorem c1_counterexample :
    stD.is_connected = false ∧
    measure_multiple_spectra (fun q => q) (fun q => q) stD 0 none true "sample" rng0
        = .error (.unboundLocal "data") ∧
    MockError.unboundLocal "data" ≠ MockError.notConnected :=
  ⟨rfl, rfl, by decide⟩

/-- C1 (witness): the amended theorem applied at concrete disconnected
and connected instances. -/
theorem c1_witness :
    stD.is_connected = false ∧ stC.is_connected = true ∧ 1 ≤ 1 ∧
    (get_wavelengths stD = .error .notConnected ∧
     measure_spectrum (fun q => q) stD none false false none "sample" rng0
       = .error .notConnected ∧
     measure_multiple_spectra (fun q => q) (fun q => q) stD 1 none true "sample" rng0
       = .error .notConnected ∧
     get_wavelengths stC ≠ .error .notConnected ∧
     measure_spectrum (fun q => q) stC none false false none "sample" rng0
       ≠ .error .notConnected ∧
     measure_multiple_spectra (fun q => q) (fun q => q) stC 0 none true "sample" rng0
       ≠ .error .notConnected) :=
  ⟨rfl, rfl, by decide,
   c1_not_connected_errors (fun q => q) (fun q => q) stD stC rfl rfl none false false
     none "sample" rng0 1 (by decide) true 0⟩

/-- C4: for every connected instance, every spectrum kind and every
integration time (the stored default when omitted), the intensities
returned by `measure_spectrum` are the synthesized spectrum scaled
pointwise by `integration_time_us / 100000`; and on the same noise draw,
measuring at 200000 µs yields exactly twice the intensities of measuring
at 100000 µs. -/
theorem c4_measure_scaling (fexp : ℚ → ℚ) (st : MockUVVisController)
    (hc : st.is_connected = true) (it : Option ℤ) (cd cn : Bool)
    (md : Option Dict) (kind : String) (r : Rng) :
    okOneIntensities (measure_spectrum fexp st it cd cn md kind r)
      = some ((generate_mock_spectrum fexp st kind r).1.map
          (fun x => x * (((it.getD st.default_integration_time : ℤ) : ℚ) / 100000))) ∧
    okOneIntensities (measure_spectrum fexp st (some 200000) cd cn md kind r)
      = (okOneIntensities (measure_spectrum fexp st (some 100000) cd cn md kind r)).map
          (fun xs => xs.map (fun x => 2 * x)) := by
  constructor
  · rw [measure_spectrum_connected fexp st hc it cd cn md kind r]
    rfl
  · rw [measure_spectrum_connected fexp st hc (some 200000) cd cn md kind r,
      measure_spectrum_connected fexp st hc (some 100000) cd cn md kind r]
    simp only [okOneIntensities, Option.map_some']
    rw [List.map_map]
    refine congrArg some (List.map_congr_left ?_)
    intro x _
    simp only [Function.comp_apply, Option.getD_some]
    push_cast
    ring

/-- C4 (witness): the theorem applied at a concrete connected instance. -/
theorem c4_witness :
    stC.is_connected = true ∧
    (okOneIntensities (measure_spectrum (fun q => q) stC none false false none "sample" rng0)
        = some ((generate_mock_spectrum (fun q => q) stC "sample" rng0).1.map
            (fun x => x * ((((none : Option ℤ).getD stC.default_integration_time : ℤ) : ℚ) / 100000))) ∧
     okOneIntensities (measure_spectrum (fun q => q) stC (some 200000) false false none "sample" rng0)
        = (okOneIntensities (measure_spectrum (fun q => q) stC (some 100000) false false none "sample" rng0)).map
            (fun xs => xs.map (fun x => 2 * x))) :=
  ⟨rfl, c4_measure_scaling (fun q => q) stC rfl none false false none "sample" rng0⟩

/-- C8: for every connected instance and caller-supplied metadata dict,
the returned measurement's metadata is the caller's dict merged (by
Python `dict.update`) with the fixed entries — the device serial number,
the two correction flags as passed, and the simulated marker `mock = True`
— and on key conflicts the fixed entries win, while every other key keeps
the caller's value. -/
theorem c8_metadata_merge (fexp : ℚ → ℚ) (st : MockUVVisController)
    (hc : st.is_connected = true) (it : Option ℤ) (cd cn : Bool)
    (m : Dict) (kind : String) (r : Rng) :
    okMetadata (measure_spectrum fexp st it cd cn (some m) kind r)
      = some (dictUpdate m (fixedEntries st cd cn)) ∧
    dictGet (dictUpdate m (fixedEntries st cd cn)) "serial_number"
      = some (MetaVal.strOpt st.serial_number) ∧
    dictGet (dictUpdate m (fixedEntries st cd cn)) "dark_corrected"
      = some (MetaVal.bool cd) ∧
    dictGet (dictUpdate m (fixedEntries st cd cn)) "nonlinearity_corrected"
      = some (MetaVal.bool cn) ∧
    dictGet (dictUpdate m (fixedEntries st cd cn)) "mock"
      = some (MetaVal.bool true) ∧
    ∀ k : String, k ≠ "serial_number" → k ≠ "dark_corrected" →
      k ≠ "nonlinearity_corrected" → k ≠ "mock" →
      dictGet (dictUpdate m (fixedEntries st cd cn)) k = dictGet m k := by
  obtain ⟨h1, h2, h3, h4⟩ := dictGet_dictUpdate_fixed st cd cn m
  refine ⟨?_, h1, h2, h3, h4, ?_⟩
  · rw [measure_spectrum_connected fexp st hc it cd cn (some m) kind r]
    rfl
  · intro k hk1 hk2 hk3 hk4
    exact dictGet_dictUpdate_fixed_other st cd cn m k hk1 hk2 hk3 hk4

/-- C8 (witness): the theorem applied at a concrete connected instance
with a caller dict that both conflicts on `mock` and carries its own key;
the conflicting fixed key wins and the caller's other key survives. -/
theorem c8_witness :
    stC.is_connected = true ∧
    dictGet (dictUpdate [("mock", MetaVal.bool false), ("operator", MetaVal.strOpt (some "alice"))]
        (fixedEntries stC false true)) "mock" = some (MetaVal.bool true) ∧
    dictGet (dictUpdate [("mock", MetaVal.bool false), ("operator", MetaVal.strOpt (some "alice"))]
        (fixedEntries stC false true)) "operator"
      = dictGet [("mock", MetaVal.bool false), ("operator", MetaVal.strOpt (some "alice"))] "operator" ∧
    okMetadata (measure_spectrum (fun q => q) stC none false true
        (some [("mock", MetaVal.bool false), ("operator", MetaVal.strOpt (some "alice"))]) "sample" rng0)
      = some (dictUpdate [("mock", MetaVal.bool false), ("operator", MetaVal.strOpt (some "alice"))]
          (fixedEntries stC false true)) := by
  have h := c8_metadata_merge (fun q => q) stC rfl none false true
    [("mock", MetaVal.bool false), ("operator", MetaVal.strOpt (some "alice"))] "sample" rng0
  exact ⟨rfl, h.2.2.2.2.1, h.2.2.2.2.2 "operator" (by decide) (by decide) (by decide) (by decide), h.1⟩

/-- C3: for every connected instance and every `n ≥ 1`, the averaged
series returns one measurement whose intensities are the elementwise mean
of the n sub-measurements collected by the loop, whose metadata carries
the measurement count n, an elementwise standard-deviation array of the
same length as the wavelength axis, the `averaged = True` flag and the
simulated marker, and whose recorded integration time is that of the last
sub-measurement performed. -/
theorem c3_averaged_series (fexp fsqrt : ℚ → ℚ) (st : MockUVVisController)
    (hc : st.is_connected = true) (n : ℕ) (hn : 1 ≤ n) (it : Option ℤ)
    (kind : String) (r : Rng) :
    ∃ (ms : List (List ℚ)) (data : MockSpectrumData) (rOut : Rng),
      measureLoop fexp st it kind n r [] none = .ok (ms, some data, rOut) ∧
      ms.length = n ∧
      measure_multiple_spectra fexp fsqrt st n it true kind r =
        .ok ({ wavelengths := st.wavelengths
               intensities := Intensities.one (columnwiseMean ms)
               timestamp := ()
               integration_time_us := data.integration_time_us
               metadata := [("n_measurements", MetaVal.int n),
                            ("std_intensities", MetaVal.arr (columnwiseStd fsqrt ms)),
                            ("averaged", MetaVal.bool true),
                            ("mock", MetaVal.bool true)] }, rOut) ∧
      data.integration_time_us = it.getD st.default_integration_time ∧
      (columnwiseMean ms).length = st.wavelengths.length ∧
      (columnwiseStd fsqrt ms).length = st.wavelengths.length ∧
      dictGet [("n_measurements", MetaVal.int n),
               ("std_intensities", MetaVal.arr (columnwiseStd fsqrt ms)),
               ("averaged", MetaVal.bool true),
               ("mock", MetaVal.bool true)] "n_measurements" = some (MetaVal.int n) ∧
      dictGet [("n_measurements", MetaVal.int n),
               ("std_intensities", MetaVal.arr (columnwiseStd fsqrt ms)),
               ("averaged", MetaVal.bool true),
               ("mock", MetaVal.bool true)] "averaged" = some (MetaVal.bool true) ∧
      dictGet [("n_measurements", MetaVal.int n),
               ("std_intensities", MetaVal.arr (columnwiseStd fsqrt ms)),
               ("averaged", MetaVal.bool true),
               ("mock", MetaVal.bool true)] "mock" = some (MetaVal.bool true) ∧
      dictGet [("n_measurements", MetaVal.int n),
               ("std_intensities", MetaVal.arr (columnwiseStd fsqrt ms)),
               ("averaged", MetaVal.bool true),
               ("mock", MetaVal.bool true)] "std_intensities"
        = some (MetaVal.arr (columnwiseStd fsqrt ms)) := by
  obtain ⟨ms, lastOut, rOut, heq, hlen, hrow, hzero, hpos⟩ :=
    measureLoop_connected fexp st hc it kind n r [] none
  obtain ⟨d, hd, hdint⟩ := hpos hn
  subst hd
  have heq' : measureLoop fexp st it kind n r [] none = .ok (ms, some d, rOut) := by
    simpa using heq
  refine ⟨ms, d, rOut, heq', hlen, ?_, hdint, ?_, ?_, by rfl, by rfl, by rfl, by rfl⟩
  · unfold measure_multiple_spectra
    rw [heq']
    rfl
  · cases ms with
    | nil =>
      simp at hlen
      omega
    | cons x rest =>
      have hx : x.length = st.wavelengths.length := hrow x (by simp)
      simp [columnwiseMean, hx]
  · cases ms with
    | nil =>
      simp at hlen
      omega
    | cons x rest =>
      have hx : x.length = st.wavelengths.length := hrow x (by simp)
      simp [columnwiseStd, hx]

/-- C3 (witness): the theorem applied at a concrete connected instance
with n = 2; the averaged series call succeeds. -/
theorem c3_witness :
    stC.is_connected = true ∧ 1 ≤ 2 ∧
    (measure_multiple_spectra (fun q => q) (fun q => q) stC 2 none true "sample" rng0).isOk
      = true := by
  refine ⟨rfl, by decide, ?_⟩
  obtain ⟨ms, data, rOut, hloop, hlen, hmain, hrest⟩ :=
    c3_averaged_series (fun q => q) (fun q => q) stC rfl 2 (by decide) none "sample" rng0
  rw [hmain]
  rfl

/-- Unfolding helper: the axis stored by the constructor. -/
theorem init_wavelengths (s : Option String) :
    (init s).wavelengths = wavelengthAxis := by
  simp only [init, wavelengthAxis]

/-- Unfolding helper: the concrete connected instance keeps the
constructed axis. -/
theorem stC_wavelengths : stC.wavelengths = wavelengthAxis := by
  simp only [stC, stD, connect, init, wavelengthAxis]

/-- C5: on every instance whose axis is the constructed one (as
established by `__init__` and preserved by `connect` and `disconnect`),
`get_wavelengths` when connected returns the stored axis: a list of
exactly 2048 values, first exactly 200, last exactly 1100, strictly
increasing with constant spacing 900/2047; and since no operation
rewrites the `wavelengths` field, repeated calls on the same instance
return identical values. -/
theorem c5_wavelength_axis (st : MockUVVisController) (s : Option String)
    (hw : st.wavelengths = wavelengthAxis) (hc : st.is_connected = true) :
    get_wavelengths st = .ok wavelengthAxis ∧
    (init s).wavelengths = wavelengthAxis ∧
    ((connect st).2).wavelengths = st.wavelengths ∧
    (disconnect st).wavelengths = st.wavelengths ∧
    wavelengthAxis.length = 2048 ∧
    wavelengthAxis.getD 0 0 = 200 ∧
    wavelengthAxis.getD 2047 0 = 1100 ∧
    List.Pairwise (fun x y => x < y) wavelengthAxis ∧
    (∀ i : ℕ, i + 1 < 2048 →
      wavelengthAxis.getD (i + 1) 0 - wavelengthAxis.getD i 0 = 900 / 2047) := by
  obtain ⟨hlen, h0, hlast, hpw⟩ := wavelengthAxis_facts
  refine ⟨?_, init_wavelengths s, rfl, rfl, hlen, h0, hlast, hpw, ?_⟩
  · rw [get_wavelengths, if_pos hc, hw]
  · intro i hi
    rw [wavelengthAxis, linspace_getD 200 1100 2048 (i + 1) hi,
      linspace_getD 200 1100 2048 i (by omega)]
    push_cast
    ring_nf

/-- C5 (witness): the theorem applied at the concrete connected instance. -/
theorem c5_witness :
    stC.wavelengths = wavelengthAxis ∧ stC.is_connected = true ∧
    get_wavelengths stC = .ok wavelengthAxis :=
  ⟨stC_wavelengths, rfl, (c5_wavelength_axis stC (some "MOCK-001") stC_wavelengths rfl).1⟩

/-- C6: at every point of the wavelength axis, the synthesized spectrum
is the noise-free formula plus the injected noise draw: for
`"reference"`, `40000 + 10000·exp(-(w-500)²/50000)`; for `"sample"`, the
same baseline plus `-15000·exp(-(w-450)²/500)` plus
`-8000·exp(-(w-650)²/800)`; in both kinds the noise added at point i is
the `normal(0, 500)` draw `0 + 500·g(pos+i)`, a fresh (independent)
standard-normal draw per point. -/
theorem c6_spectrum_formula (fexp : ℚ → ℚ) (st : MockUVVisController) (r : Rng)
    (i : ℕ) (hi : i < st.wavelengths.length) :
    (generate_mock_spectrum fexp st "reference" r).1.getD i 0
      = (40000 + 10000 * fexp (-((st.wavelengths[i] - 500) ^ 2) / 50000))
        + (0 + 500 * r.g (r.pos + i)) ∧
    (generate_mock_spectrum fexp st "sample" r).1.getD i 0
      = ((40000 + 10000 * fexp (-((st.wavelengths[i] - 500) ^ 2) / 50000))
         + (-15000) * fexp (-((st.wavelengths[i] - 450) ^ 2) / 500)
         + (-8000) * fexp (-((st.wavelengths[i] - 650) ^ 2) / 800))
        + (0 + 500 * r.g (r.pos + i)) := by
  constructor
  · simp only [generate_mock_spectrum, normalDraws, beq_self_eq_true, if_true]
    rw [List.getD_eq_getElem _ _ (by simpa [List.length_zipWith] using hi)]
    simp only [List.getElem_zipWith, List.getElem_map, List.getElem_range]
  · have hss : (("sample" : String) == "reference") = false := by decide
    simp only [generate_mock_spectrum, normalDraws, hss, Bool.false_eq_true, if_false]
    rw [List.getD_eq_getElem _ _ (by simpa [List.length_zipWith] using hi)]
    simp only [List.getElem_zipWith, List.getElem_map, List.getElem_range]

/-- C6 (witness): the theorem applied at a concrete instance and index. -/
theorem c6_witness :
    (5 < stC.wavelengths.length) ∧
    (generate_mock_spectrum (fun q => q) stC "reference" rng0).1.getD 5 0
      = (40000 + 10000 * ((fun q => q)
          (-((stC.wavelengths.get ⟨5, by rw [stC_wavelengths, wavelengthAxis, linspace_length]; norm_num⟩ - 500) ^ 2) / 50000)))
        + (0 + 500 * rng0.g (rng0.pos + 5)) := by
  have hlen : stC.wavelengths.length = 2048 := by
    rw [stC_wavelengths, wavelengthAxis, linspace_length]
  have h5 : 5 < stC.wavelengths.length := by omega
  exact ⟨h5, (c6_spectrum_formula (fun q => q) stC rng0 5 h5).1⟩

/-- Setting the freshly appended cell of a store rewrites exactly that
cell. -/
theorem set_append_singleton (l : Store) (x y : Dict) :
    (l ++ [x]).set l.length y = l ++ [y] := by
  induction l with
  | nil => rfl
  | cons a t ih => simp [List.set, ih]

/-- Reading the freshly appended cell of a store. -/
theorem getD_append_singleton (l : Store) (x : Dict) :
    (l ++ [x]).getD l.length [] = x := by
  induction l with
  | nil => rfl
  | cons a t ih => simp [ih]

/-- C7 (amended): on every connected instance, when the caller supplies a
metadata dict object, the returned measurement's metadata field is the
very same object (the same store reference), and that object is mutated
in place by the fixed-key merge — the caller does not own an independent
copy.  Only when no metadata is supplied (`None`) does the call allocate
a fresh dict, at a reference unused by the existing store. -/
theorem c7_metadata_aliasing (fexp : ℚ → ℚ) (st : MockUVVisController) (store : Store)
    (hc : st.is_connected = true) (it : Option ℤ) (cd cn : Bool) (kind : String)
    (r : Rng) (ref : ℕ) :
    Except.map (fun out => (out.2.1.metadataRef, out.1))
        (measure_spectrum_heap fexp st store it cd cn (some ref) kind r)
      = .ok (ref, storeSet store ref
          (dictUpdate (storeGet store ref) (fixedEntries st cd cn))) ∧
    Except.map (fun out => (out.2.1.metadataRef, out.1))
        (measure_spectrum_heap fexp st store it cd cn none kind r)
      = .ok (store.length, store ++ [dictUpdate [] (fixedEntries st cd cn)]) := by
  constructor
  · simp only [measure_spectrum_heap, hc, if_true]
    rfl
  · simp only [measure_spectrum_heap, hc, if_true, storeAlloc,
      set_append_singleton, getD_append_singleton, storeSet, storeGet]
    rfl

/-- C7 (counterexample to the claim as stated): on a concrete connected
instance, measuring with a caller-supplied dict object (reference 0 in a
one-object store) returns a measurement whose metadata field is reference
0 — the caller's own object — and that object has been mutated by the
merge, so the returned metadata is aliased with, not independent of, the
caller's mapping. -/
theorem c7_counterexample :
    Except.map (fun out => out.2.1.metadataRef)
        (measure_spectrum_heap (fun q => q) stC [[("operator", MetaVal.strOpt (some "alice"))]]
          none false false (some 0) "sample" rng0) = .ok 0 ∧
    Except.map (fun out => storeGet out.1 0)
        (measure_spectrum_heap (fun q => q) stC [[("operator", MetaVal.strOpt (some "alice"))]]
          none false false (some 0) "sample" rng0)
      = .ok [("operator", MetaVal.strOpt (some "alice")),
             ("serial_number", MetaVal.strOpt (some "MOCK-001")),
             ("dark_corrected", MetaVal.bool false),
             ("nonlinearity_corrected", MetaVal.bool false),
             ("mock", MetaVal.bool true)] ∧
    ([("operator", MetaVal.strOpt (some "alice")),
      ("serial_number", MetaVal.strOpt (some "MOCK-001")),
      ("dark_corrected", MetaVal.bool false),
      ("nonlinearity_corrected", MetaVal.bool false),
      ("mock", MetaVal.bool true)] : Dict) ≠ [("operator", MetaVal.strOpt (some "alice"))] :=
  ⟨rfl, rfl, by decide⟩

/-- C7 (witness): the amended theorem applied at a concrete connected
instance and store. -/
theorem c7_witness :
    stC.is_connected = true ∧
    Except.map (fun out => (out.2.1.metadataRef, out.1))
        (measure_spectrum_heap (fun q => q) stC [[]] none false false (some 0) "sample" rng0)
      = .ok (0, storeSet [[]] 0 (dictUpdate (storeGet [[]] 0) (fixedEntries stC false false))) :=
  ⟨rfl, (c7_metadata_aliasing (fun q => q) stC [[]] rfl none false false "sample" rng0 0).1⟩

/-- C10: every `spectrum_type` other than exactly `"reference"` — not
only `"sample"` — produces the sample-shaped spectrum with both
absorption dips, and no `spectrum_type` value is ever rejected: when
connected, `measure_spectrum` succeeds for every kind, and
`measure_multiple_spectra` succeeds for every kind and every
`n_measurements ≥ 1`. -/
theorem c10_kind_fallthrough (fexp fsqrt : ℚ → ℚ) (st : MockUVVisController)
    (kind : String) (hc : st.is_connected = true) (it : Option ℤ) (cd cn : Bool)
    (md : Option Dict) (r : Rng) (n : ℕ) (hn : 1 ≤ n) (av : Bool) :
    (kind ≠ "reference" →
      generate_mock_spectrum fexp st kind r = generate_mock_spectrum fexp st "sample" r) ∧
    (measure_spectrum fexp st it cd cn md kind r).isOk = true ∧
    (measure_multiple_spectra fexp fsqrt st n it av kind r).isOk = true := by
  refine ⟨?_, ?_, ?_⟩
  · intro h
    have hb : (kind == "reference") = false := beq_eq_false_iff_ne.mpr h
    have hs : (("sample" : String) == "reference") = false := by decide
    simp only [generate_mock_spectrum, hb, hs, Bool.false_eq_true, if_false]
  · rw [measure_spectrum_connected fexp st hc it cd cn md kind r]
    rfl
  · obtain ⟨ms, lastOut, rOut, heq, hlen, hrow, hzero, hpos⟩ :=
      measureLoop_connected fexp st hc it kind n r [] none
    obtain ⟨d, hd, hdint⟩ := hpos hn
    subst hd
    unfold measure_multiple_spectra
    rw [show measureLoop fexp st it kind n r [] none = .ok (ms, some d, rOut) from
      by simpa using heq]
    cases av <;> rfl

/-- C10 (witness): the theorem applied at a concrete connected instance
with the unrecognized kind `"Sample"`. -/
theorem c10_witness :
    stC.is_connected = true ∧ 1 ≤ 1 ∧ ("Sample" : String) ≠ "reference" ∧
    generate_mock_spectrum (fun q => q) stC "Sample" rng0
      = generate_mock_spectrum (fun q => q) stC "sample" rng0 ∧
    (measure_spectrum (fun q => q) stC none false false none "Sample" rng0).isOk = true ∧
    (measure_multiple_spectra (fun q => q) (fun q => q) stC 1 none false "Sample" rng0).isOk
      = true := by
  have h := c10_kind_fallthrough (fun q => q) (fun q => q) stC "Sample" rfl none false false
    none rng0 1 (by decide) false
  exact ⟨rfl, by decide, by decide, h.1 (by decide), h.2.1, h.2.2⟩

end MockUVVis
